import Mathlib

/-!
Verification development for the informix_fdw foreign-data wrapper
(src/ifx_fdw.c, src/ifx_conv.c, src/ifx_conncache.c).

Each C function relevant to the checked properties is translated into a
Lean definition over explicit state values.  Backend hash tables become
association lists, C arrays become lists indexed with an explicit
option-returning accessor, and calls into external libraries (the
PostgreSQL catalog/syscache, the Informix ESQL/C client) become oracle
fields of the state or explicit catalog parameters.  Struct and macro
declarations that live in ifx_fdw.h / ifx_conncache.h (headers that are
not part of the examined sources) are reconstructed from their use sites
and from the specification; such definitions carry a note in their doc
comment.
-/

set_option autoImplicit false

namespace InformixFdw

/-- PostgreSQL object identifier. -/
abbrev Oid := Nat

/-- pg_catalog's namespace oid (PG_CATALOG_NAMESPACE). -/
def PG_CATALOG_NAMESPACE : Oid := 11

def INT2OID : Oid := 21
def INT4OID : Oid := 23
def INT8OID : Oid := 20
def TEXTOID : Oid := 25
def VARCHAROID : Oid := 1043
def BPCHAROID : Oid := 1042
def DATEOID : Oid := 1082
def NUMERICOID : Oid := 1700
def BOOLOID : Oid := 16
def BYTEAOID : Oid := 17
def TIMESTAMPOID : Oid := 1114
def TIMESTAMPTZOID : Oid := 1184

/-! ## Connection cache and foreign-table cache (src/ifx_conncache.c)

The backend-local hash tables created by hash_create are modelled as
association lists; hash_search with HASH_ENTER is lookup-or-insert,
with HASH_FIND a plain lookup.  pstrdup'ed strings are plain values. -/

/-- Modelled from the spec: the scan-mode flag carried in IfxConnectionInfo
(declared in ifx_fdw.h, which is not among the examined sources).  The
cache code only distinguishes IFX_PLAN_SCAN (a new scan is starting, the
usage counter must advance) from every other mode, so a two-constructor
type suffices. -/
inductive IfxScanMode where
  | IFX_PLAN_SCAN
  | IFX_OTHER_MODE
deriving DecidableEq

/-- The connection parameters handed to the cache (the relevant fields of
IfxConnectionInfo from ifx_fdw.h, reconstructed from their use sites in
ifxConnCache_add and ifxBeginForeignScan). -/
structure IfxConnectionInfo where
  conname : String
  servername : String
  informixdir : String
  username : String
  database : String
  tx_enabled : Bool
  db_ansi : Bool
  db_locale : Option String
  client_locale : Option String
  scan_mode : IfxScanMode
deriving DecidableEq

/-- The per-connection data stored in the cache (the con member of
IfxCachedConnection, reconstructed from the assignments in
ifxConnCache_add). -/
structure IfxConnection where
  servername : String
  informixdir : String
  username : String
  database : String
  tx_enabled : Bool
  db_ansi : Bool
  tx_in_progress : Int
  tx_num_commit : Int
  tx_num_rollback : Int
  db_locale : Option String
  client_locale : Option String
  usage : Nat
deriving DecidableEq

/-- A connection-cache entry. -/
structure IfxCachedConnection where
  establishedByOid : Oid
  con : IfxConnection
deriving DecidableEq

/-- The connection cache: entries keyed by connection name. -/
abbrev IfxConnCache := List (String × IfxCachedConnection)

/-- Replace the entry stored under the given key, leaving every other
entry untouched (the in-place update of a hash-table entry). -/
def cacheStore (cache : IfxConnCache) (key : String) (item : IfxCachedConnection) :
    IfxConnCache :=
  cache.map (fun e => if e.1 = key then (key, item) else e)

/-- Shallow embedding of ifxConnCache_add (src/ifx_conncache.c:136-217).
hash_search(..., HASH_ENTER, found) is lookup-or-insert keyed by
coninfo->conname.  On a miss the new entry copies the connection
parameters (pstrdup) and initializes tx_in_progress, tx_num_commit and
tx_num_rollback to 0 and usage to 1; on a hit the stored entry is
returned and usage is incremented exactly when coninfo->scan_mode is
IFX_PLAN_SCAN.  Returns (updated cache, returned item, found flag). -/
def ifxConnCache_add (cache : IfxConnCache) (foreignTableOid : Oid)
    (coninfo : IfxConnectionInfo) : IfxConnCache × IfxCachedConnection × Bool :=
  match List.lookup coninfo.conname cache with
  | none =>
      let item : IfxCachedConnection :=
        { establishedByOid := foreignTableOid
          con :=
            { servername := coninfo.servername
              informixdir := coninfo.informixdir
              username := coninfo.username
              database := coninfo.database
              tx_enabled := coninfo.tx_enabled
              db_ansi := coninfo.db_ansi
              tx_in_progress := 0
              tx_num_commit := 0
              tx_num_rollback := 0
              db_locale := coninfo.db_locale
              client_locale := coninfo.client_locale
              usage := 1 } }
      (cache ++ [(coninfo.conname, item)], item, false)
  | some item =>
      let item' :=
        if coninfo.scan_mode = IfxScanMode.IFX_PLAN_SCAN then
          { item with con := { item.con with usage := item.con.usage + 1 } }
        else item
      (cacheStore cache coninfo.conname item', item', true)

/-- A foreign-table cache entry (IfxFTCacheItem from ifx_conncache.h,
reconstructed from the assignments in ifxFTCache_add). -/
structure IfxFTCacheItem where
  foreignTableOid : Oid
  ifx_connection_name : String
deriving DecidableEq

/-- The foreign-table cache: entries keyed by table oid. -/
abbrev IfxFTCache := List (Oid × IfxFTCacheItem)

/-- PostgreSQL's StrNCpy macro: strncpy at most len bytes of src into the
destination and then force a terminating zero at position len - 1, so at
most the first len - 1 characters of src survive.  With len = 0 it does
nothing; on a zero-filled destination buffer the stored C string then
reads back as empty. -/
def pgStrNCpy (src : String) (len : Nat) : String :=
  if len = 0 then "" else String.mk (src.toList.take (len - 1))

/-- Shallow embedding of ifxFTCache_add (src/ifx_conncache.c:271-296).
hash_search(HASH_ENTER) keyed by the table oid; on a new entry the
connection-name buffer is bzero'ed and then filled with
StrNCpy(item->ifx_connection_name, conname, strlen(conname)), passing the
string's own length as the StrNCpy length argument.  On a hit the stored
entry is returned unchanged. -/
def ifxFTCache_add (cache : IfxFTCache) (foreignTableOid : Oid) (conname : String) :
    IfxFTCache × IfxFTCacheItem :=
  match List.lookup foreignTableOid cache with
  | none =>
      let item : IfxFTCacheItem :=
        { foreignTableOid := foreignTableOid
          ifx_connection_name := pgStrNCpy conname conname.length }
      (cache ++ [(foreignTableOid, item)], item)
  | some item => (cache, item)

/-! ## Statement and cursor identifier generation (src/ifx_fdw.c) -/

/-- Reading a zero-terminated C string out of a byte buffer: the bytes
before the first zero. -/
def cStringOf (buf : List Nat) : String :=
  String.mk ((buf.takeWhile (fun b => b != 0)).map (fun b => Char.ofNat b))

/-- Shallow embedding of ifxGenStatementName (src/ifx_fdw.c:586-598).
The function allocates a zero-filled buffer of strlen(conname) + 10 + 1
bytes and then calls snprintf("%s_%d", stmt_name_len, coninfo->conname,
MyBackendId).  The first snprintf argument is the destination buffer, so
this call writes into the string literal "%s_%d" and never into
stmt_name; the function returns the untouched zero-filled buffer, which
reads back as the empty C string.  The session usage counter is not an
input of the computation at all. -/
def ifxGenStatementName (coninfo : IfxConnectionInfo) (backendId : Int) : String :=
  let stmt_name_len := coninfo.conname.length + 10
  let stmt_name := List.replicate (stmt_name_len + 1) 0
  cStringOf stmt_name

/-- Shallow embedding of ifxGenCursorName (src/ifx_fdw.c:603-614).  Same
shape as ifxGenStatementName: snprintf("%s_%d_cur", len, conname,
MyBackendId) targets the string literal, and the zero-filled cursor_name
buffer is returned unchanged. -/
def ifxGenCursorName (coninfo : IfxConnectionInfo) (backendId : Int) : String :=
  let len := coninfo.conname.length + 10
  let cursor_name := List.replicate (len + 1) 0
  cStringOf cursor_name

/-- The identifier-generating steps of ifxBeginForeignScan
(src/ifx_fdw.c:636, 667, 672): bind the session through ifxConnCache_add,
then generate the statement and cursor identifiers from the connection
info.  Returns the updated cache, the bound entry's usage counter, and
the two generated identifiers. -/
def scanBindIdentifiers (cache : IfxConnCache) (foreignTableOid : Oid)
    (coninfo : IfxConnectionInfo) (backendId : Int) :
    IfxConnCache × Nat × String × String :=
  let r := ifxConnCache_add cache foreignTableOid coninfo
  (r.1, r.2.1.con.usage, ifxGenStatementName coninfo backendId,
    ifxGenCursorName coninfo backendId)

/-! ## Predicate pushdown (src/ifx_conv.c)

The PostgreSQL expression nodes the walker inspects are modelled as an
inductive type.  An OpExpr node carries the pg_operator catalog tuple
(name and namespace) directly, standing for the OPEROID syscache lookup
that mapPushdownOperator performs on the operator oid; a failed lookup
there is an elog for a dangling oid and outside the modelled inputs. -/

/-- The boolop field of a BoolExpr. -/
inductive PgBoolExprType where
  | AND_EXPR
  | OR_EXPR
  | NOT_EXPR
deriving DecidableEq

/-- The nulltesttype field of a NullTest. -/
inductive PgNullTestType where
  | IS_NULL
  | IS_NOT_NULL
deriving DecidableEq

/-- The pg_operator fields mapPushdownOperator reads from the syscache
tuple. -/
structure PgOperator where
  oprname : String
  oprnamespace : Oid
deriving DecidableEq

/-- Expression nodes examined by ifx_predicate_tree_walker.  subLinkNode
stands for any node kind the walker has no IsA branch for (for example a
SubLink such as a > (SELECT ...)). -/
inductive PgNode where
  | varNode (varno : Nat) (varlevelsup : Nat) (attname : String)
  | constNode (val : String)
  | opExprNode (opr : PgOperator) (args : List PgNode)
  | boolExprNode (boolop : PgBoolExprType) (args : List PgNode)
  | nullTestNode (nulltesttype : PgNullTestType) (argisrow : Bool) (arg : PgNode)
  | subLinkNode (sub : String)

/-- IfxOprType from ifx_fdw.h, reconstructed from its uses in
mapPushdownOperator and ifx_predicate_tree_walker. -/
inductive IfxOprType where
  | IFX_OPR_GE
  | IFX_OPR_LE
  | IFX_OPR_LT
  | IFX_OPR_GT
  | IFX_OPR_EQUAL
  | IFX_OPR_NEQUAL
  | IFX_OPR_LIKE
  | IFX_OPR_AND
  | IFX_OPR_OR
  | IFX_OPR_NOT
  | IFX_IS_NULL
  | IFX_IS_NOT_NULL
  | IFX_OPR_NOT_SUPPORTED
  | IFX_OPR_UNKNOWN
deriving DecidableEq

/-- A pushdown fragment: the operator tag and the deparsed text (NULL
until deparse_predicate_node fills it in). -/
structure IfxPushdownOprInfo where
  type : IfxOprType
  expr_string : Option String
deriving DecidableEq

/-- The walker context: target range-table index, target relation oid,
and the ordered fragment sequence with its count. -/
structure IfxPushdownOprContext where
  foreign_relid : Oid
  foreign_rtid : Nat
  predicates : List IfxPushdownOprInfo
  count : Nat
deriving DecidableEq

/-- The IFX_MARK_PREDICATE_ELEM / IFX_MARK_PREDICATE_BOOL macros
(src/ifx_conv.c:1163-1169): lappend the info to the context's predicate
list and increment its count. -/
def pushPredicate (context : IfxPushdownOprContext) (info : IfxPushdownOprInfo) :
    IfxPushdownOprContext :=
  { context with predicates := context.predicates ++ [info], count := context.count + 1 }

/-- Shallow embedding of mapPushdownOperator (src/ifx_conv.c:1068-1142):
reject any operator whose pg_operator tuple is not in the pg_catalog
namespace, then map the operator name through the strcmp chain.  The
assignment to pushdownInfo->type always equals the returned value, so the
embedding just returns it. -/
def mapPushdownOperator (opr : PgOperator) : IfxOprType :=
  if opr.oprnamespace ≠ PG_CATALOG_NAMESPACE then IfxOprType.IFX_OPR_NOT_SUPPORTED
  else if opr.oprname = ">=" then IfxOprType.IFX_OPR_GE
  else if opr.oprname = "<=" then IfxOprType.IFX_OPR_LE
  else if opr.oprname = "<" then IfxOprType.IFX_OPR_LT
  else if opr.oprname = ">" then IfxOprType.IFX_OPR_GT
  else if opr.oprname = "=" then IfxOprType.IFX_OPR_EQUAL
  else if opr.oprname = "<>" then IfxOprType.IFX_OPR_NEQUAL
  else if opr.oprname = "~~" then IfxOprType.IFX_OPR_LIKE
  else IfxOprType.IFX_OPR_NOT_SUPPORTED

/-- The operand check inside the OpExpr branch of
ifx_predicate_tree_walker (src/ifx_conv.c:1357-1386): a Var must name the
target relation (varno equal to the context's foreign_rtid) at the
current query level (varlevelsup 0); a Const is always fine; every other
node kind clears operand_supported. -/
def operandSupported (foreign_rtid : Nat) : PgNode → Bool
  | .varNode varno varlevelsup _ => varno == foreign_rtid && varlevelsup == 0
  | .constNode _ => true
  | _ => false

mutual
/-- Modelled from the spec: deparse_expression, the local engine's
expression-printing facility used by deparse_predicate_node
(src/ifx_conv.c:1421-1448); it renders an accepted subtree to its source
text, emitting column names for relation references (the preceding
ChangeVarNodes renumbering only serves that printer and has no other
observable effect, so the model prints the attribute name directly). -/
def deparse_expression : PgNode → String
  | .varNode _ _ attname => attname
  | .constNode val => val
  | .opExprNode opr args =>
      String.intercalate (" " ++ opr.oprname ++ " ") (deparseList args)
  | .boolExprNode boolop args =>
      String.intercalate
        (match boolop with
         | .AND_EXPR => " AND "
         | .OR_EXPR => " OR "
         | .NOT_EXPR => " NOT ")
        (deparseList args)
  | .nullTestNode ntt _ arg =>
      deparse_expression arg ++
        (match ntt with
         | .IS_NULL => " IS NULL"
         | .IS_NOT_NULL => " IS NOT NULL")
  | .subLinkNode sub => sub

/-- Pointwise rendering of an argument list for deparse_expression. -/
def deparseList : List PgNode → List String
  | [] => []
  | a :: rest => deparse_expression a :: deparseList rest
end

/-- The connective marker built in the BoolExpr branch of
ifx_predicate_tree_walker (src/ifx_conv.c:1225-1244): operator tag plus
the literal connective text. -/
def boolConnectiveInfo (boolop : PgBoolExprType) : IfxPushdownOprInfo :=
  match boolop with
  | .AND_EXPR => { type := IfxOprType.IFX_OPR_AND, expr_string := some "AND" }
  | .OR_EXPR => { type := IfxOprType.IFX_OPR_OR, expr_string := some "OR" }
  | .NOT_EXPR => { type := IfxOprType.IFX_OPR_NOT, expr_string := some "NOT" }

mutual
/-- Shallow embedding of ifx_predicate_tree_walker
(src/ifx_conv.c:1184-1415).  The C function mutates the context in place
and returns a bool; the embedding returns the updated context together
with that bool.  Each accepted node is appended to the predicate list and
immediately deparsed (the C code appends the info pointer first and then
fills its expr_string through deparse_predicate_node; the net effect on
the list is appending the completed info). -/
def ifx_predicate_tree_walker (node : PgNode) (context : IfxPushdownOprContext) :
    IfxPushdownOprContext × Bool :=
  match node with
  | .boolExprNode boolop args =>
      (walkBoolExprArgs boolop args context, true)
  | .nullTestNode ntt argisrow arg =>
      if argisrow then (context, true)
      else
        let ty :=
          match ntt with
          | .IS_NULL => IfxOprType.IFX_IS_NULL
          | .IS_NOT_NULL => IfxOprType.IFX_IS_NOT_NULL
        let operand_supported :=
          match arg with
          | .varNode varno varlevelsup _ =>
              varno == context.foreign_rtid && varlevelsup == 0
          | _ => false
        if !operand_supported then (context, true)
        else
          (pushPredicate context
            { type := ty
              expr_string :=
                some (deparse_expression (.nullTestNode ntt argisrow arg)) },
            false)
  | .opExprNode opr args =>
      if mapPushdownOperator opr ≠ IfxOprType.IFX_OPR_NOT_SUPPORTED then
        if args.all (operandSupported context.foreign_rtid) then
          (pushPredicate context
            { type := mapPushdownOperator opr
              expr_string := some (deparse_expression (.opExprNode opr args)) },
            false)
        else (context, true)
      else (context, true)
  | .varNode _ _ _ => (context, false)
  | .constNode _ => (context, false)
  | .subLinkNode _ => (context, false)

/-- The foreach loop of the BoolExpr branch (src/ifx_conv.c:1210-1250):
recurse into each argument, and after every argument that still has a
successor (lnext(cell) != NULL) append one connective marker. -/
def walkBoolExprArgs (boolop : PgBoolExprType) (args : List PgNode)
    (context : IfxPushdownOprContext) : IfxPushdownOprContext :=
  match args with
  | [] => context
  | [arg] => (ifx_predicate_tree_walker arg context).1
  | arg :: rest =>
      let c1 := (ifx_predicate_tree_walker arg context).1
      walkBoolExprArgs boolop rest (pushPredicate c1 (boolConnectiveInfo boolop))
end

/-- The operand shape the specification admits for a pushed-down
comparison: a column reference of the single target relation with no
outer-query scope, or a constant. -/
def operandIsTargetColumnOrConst (foreign_rtid : Nat) : PgNode → Prop
  | .varNode varno varlevelsup _ => varno = foreign_rtid ∧ varlevelsup = 0
  | .constNode _ => True
  | _ => False

/-! ## Type marshaling (src/ifx_conv.c)

The conversion routines read per-attribute metadata through accessor
macros from ifx_fdw.h (PG_ATTRTYPE_P, PG_ATTRTYPEMOD_P, IFX_ATTRTYPE_P,
PG_MAPPED_IFX_ATTNUM, IFX_ATTR_SETNOTVALID_P); the header is not among
the examined sources, so the state below carries those attribute maps as
total functions, reconstructed from the macro use sites and the spec's
data model.  Calls into the Informix ESQL layer (value getters) and into
the PostgreSQL fmgr (OidFunctionCallN) are oracle fields. -/

/-- A pg_proc function oid. -/
abbrev Regproc := Nat

/-- Informix source-type tags (from ifx_fdw.h, reconstructed from their
use sites in the conversion routines). -/
inductive IfxSourceType where
  | IFX_SMALLINT
  | IFX_INTEGER
  | IFX_SERIAL
  | IFX_INT8
  | IFX_SERIAL8
  | IFX_INFX_INT8
  | IFX_CHARACTER
  | IFX_TEXT
  | IFX_DATE
  | IFX_DTIME
  | IFX_DECIMAL
  | IFX_BOOLEAN
deriving DecidableEq

/-- Per-value indicator state: SQL NULL flag plus the not-convertible
marker set by IFX_ATTR_SETNOTVALID_P. -/
inductive IfxIndicator where
  | INDICATOR_NOT_NULL
  | INDICATOR_NULL
  | INDICATOR_NOT_VALID
deriving DecidableEq

/-- PostgreSQL datum values crossing the conversion layer. -/
inductive Datum where
  | nullDatum
  | int16 (v : Int)
  | int32 (v : Int)
  | oidDatum (o : Oid)
  | cstring (s : String)
deriving DecidableEq

/-- The conversion-layer view of IfxFdwExecutionState: per-attribute
metadata accessors, the pending remote diagnostic state of stmt_info,
and the ESQL value getters for the current row. -/
structure IfxConvState where
  pgAttrType : Nat → Oid
  pgAttrTypmod : Nat → Int
  ifxAttrType : Nat → IfxSourceType
  indicators : Nat → IfxIndicator
  pgIfxMap : Nat → Nat
  callstackPending : Bool
  getInt2 : Nat → Int
  getInt4 : Nat → Int
  getInt8str : Nat → Option String
  getBigIntstr : Nat → Option String
  getDateString : Nat → Option String
  getTimestampString : Nat → Option String
  getDecimalString : Nat → Option String

/-- Modelled from the spec: ifxRewindCallstack (declared in ifx_fdw.h and
implemented in the ESQL layer, not among the examined sources) clears the
pending remote-side diagnostic state so that no ESQL-allocated memory is
leaked when a PostgreSQL error propagates out of this layer. -/
def ifxRewindCallstack (st : IfxConvState) : IfxConvState :=
  { st with callstackPending := false }

/-- Modelled from the spec: the IFX_ATTR_SETNOTVALID_P macro from
ifx_fdw.h marks exactly one attribute's value as not convertible by
setting its indicator to INDICATOR_NOT_VALID. -/
def setAttrNotValid (st : IfxConvState) (attnum : Nat) : IfxConvState :=
  { st with
      indicators := fun j =>
        if j = attnum then IfxIndicator.INDICATOR_NOT_VALID else st.indicators j }

/-- The PostgreSQL catalog and fmgr as the conversion layer sees them:
syscache lookups of input/output/cast functions (None models an invalid
heap tuple) and function invocation, which may raise a PostgreSQL error
(Except.error). -/
structure PgCatalog where
  typinput : Oid → Option Regproc
  typoutput : Oid → Option Regproc
  castfunc : Oid → Oid → Option Regproc
  callFunc : Regproc → List Datum → Except Unit Datum

/-- Result of one remote-to-local conversion call: a returned datum with
the resulting execution state, or a propagated PostgreSQL error carrying
the state as it is when the error leaves the function. -/
inductive ConvResult where
  | ok (st : IfxConvState) (d : Datum)
  | err (st : IfxConvState)

/-- Shallow embedding of getTypeInputFunction (src/ifx_conv.c:640-670):
look up the TYPEOID syscache entry; if the tuple is invalid, first
ifxRewindCallstack(&state->stmt_info) and only then elog(ERROR).  The
error value carries the state at the moment the error propagates. -/
def getTypeInputFunction (cat : PgCatalog) (st : IfxConvState) (inputOid : Oid) :
    Except IfxConvState Regproc :=
  match cat.typinput inputOid with
  | none => Except.error (ifxRewindCallstack st)
  | some f => Except.ok f

/-- Shallow embedding of getTypeCastFunction (src/ifx_conv.c:677-699):
look up CASTSOURCETARGET; on an invalid tuple, ifxRewindCallstack first,
then elog(ERROR). -/
def getTypeCastFunction (cat : PgCatalog) (st : IfxConvState)
    (sourceOid targetOid : Oid) : Except IfxConvState Regproc :=
  match cat.castfunc sourceOid targetOid with
  | none => Except.error (ifxRewindCallstack st)
  | some f => Except.ok f

/-- Shallow embedding of getTypeOutputFunction (src/ifx_conv.c:601-631):
look up the TYPEOID syscache entry; on an invalid tuple,
ifxRewindCallstack first, then elog(ERROR). -/
def getTypeOutputFunction (cat : PgCatalog) (st : IfxConvState) (inputOid : Oid) :
    Except IfxConvState Regproc :=
  match cat.typoutput inputOid with
  | none => Except.error (ifxRewindCallstack st)
  | some f => Except.ok f

/-- Shallow embedding of convertIfxDateString (src/ifx_conv.c:71-135).
A target type outside {TEXT, VARCHAR, BPCHAR, DATE} marks the attribute
not valid and returns a null datum.  Otherwise the Informix date is
fetched as a string (NULL models SQL null or an ESQL conversion error,
returned to the caller as a null datum); the input-function lookup and
invocation run inside PG_TRY, whose PG_CATCH rewinds the callstack and
re-throws. -/
def convertIfxDateString (cat : PgCatalog) (st : IfxConvState) (attnum : Nat) :
    ConvResult :=
  let pgtype := st.pgAttrType attnum
  if pgtype = TEXTOID ∨ pgtype = VARCHAROID ∨ pgtype = BPCHAROID ∨ pgtype = DATEOID then
    let inputOid := pgtype
    match st.getDateString (st.pgIfxMap attnum) with
    | none => ConvResult.ok st Datum.nullDatum
    | some val =>
      match getTypeInputFunction cat st inputOid with
      | Except.error est => ConvResult.err (ifxRewindCallstack est)
      | Except.ok typeinputfunc =>
        match cat.callFunc typeinputfunc
            [Datum.cstring val, Datum.oidDatum 0, Datum.int32 (st.pgAttrTypmod attnum)] with
        | Except.error _ => ConvResult.err (ifxRewindCallstack st)
        | Except.ok result => ConvResult.ok st result
  else
    ConvResult.ok (setAttrNotValid st attnum) Datum.nullDatum

/-- Shallow embedding of convertIfxTimestampString (src/ifx_conv.c:143-212),
same structure as convertIfxDateString with targets {TEXT, VARCHAR,
BPCHAR, TIMESTAMP, TIMESTAMPTZ}. -/
def convertIfxTimestampString (cat : PgCatalog) (st : IfxConvState) (attnum : Nat) :
    ConvResult :=
  let pgtype := st.pgAttrType attnum
  if pgtype = TEXTOID ∨ pgtype = VARCHAROID ∨ pgtype = BPCHAROID ∨
      pgtype = TIMESTAMPOID ∨ pgtype = TIMESTAMPTZOID then
    let inputOid := pgtype
    match st.getTimestampString (st.pgIfxMap attnum) with
    | none => ConvResult.ok st Datum.nullDatum
    | some val =>
      match getTypeInputFunction cat st inputOid with
      | Except.error est => ConvResult.err (ifxRewindCallstack est)
      | Except.ok typeinputfunc =>
        match cat.callFunc typeinputfunc
            [Datum.cstring val, Datum.oidDatum 0, Datum.int32 (st.pgAttrTypmod attnum)] with
        | Except.error _ => ConvResult.err (ifxRewindCallstack st)
        | Except.ok result => ConvResult.ok st result
  else
    ConvResult.ok (setAttrNotValid st attnum) Datum.nullDatum

/-- Shallow embedding of convertIfxDecimal (src/ifx_conv.c:225-291): only
a NUMERIC target is accepted; anything else marks the attribute not valid
and returns a null datum. -/
def convertIfxDecimal (cat : PgCatalog) (st : IfxConvState) (attnum : Nat) :
    ConvResult :=
  let pgtype := st.pgAttrType attnum
  if pgtype = NUMERICOID then
    let inputOid := pgtype
    match st.getDecimalString (st.pgIfxMap attnum) with
    | none => ConvResult.ok st Datum.nullDatum
    | some val =>
      match getTypeInputFunction cat st inputOid with
      | Except.error est => ConvResult.err (ifxRewindCallstack est)
      | Except.ok typinputfunc =>
        match cat.callFunc typinputfunc
            [Datum.cstring val, Datum.oidDatum 0, Datum.int32 (st.pgAttrTypmod attnum)] with
        | Except.error _ => ConvResult.err (ifxRewindCallstack st)
        | Except.ok result => ConvResult.ok st result
  else
    ConvResult.ok (setAttrNotValid st attnum) Datum.nullDatum

/-- Shallow embedding of convertIfxInt (src/ifx_conv.c:302-479).
Target INT2 accepts only an Informix SMALLINT source; target INT4
accepts SMALLINT, INTEGER and SERIAL; targets INT8/TEXT/VARCHAR/BPCHAR
route an int8-family source through a character buffer and the type
input function, and a remaining integer source through the cast function
from its PostgreSQL equivalent; any other target marks the attribute not
valid and returns a null datum.  The character-target arm runs inside
PG_TRY whose PG_CATCH rewinds the callstack and re-throws; a NULL buffer
from ifxGetInt8/ifxGetBigInt rewinds and raises directly. -/
def convertIfxInt (cat : PgCatalog) (st : IfxConvState) (attnum : Nat) : ConvResult :=
  let pgtype := st.pgAttrType attnum
  if pgtype = INT2OID then
    if st.ifxAttrType attnum ≠ IfxSourceType.IFX_SMALLINT then
      ConvResult.ok (setAttrNotValid st attnum) Datum.nullDatum
    else
      ConvResult.ok st (Datum.int16 (st.getInt2 (st.pgIfxMap attnum)))
  else if pgtype = INT4OID then
    if st.ifxAttrType attnum ≠ IfxSourceType.IFX_SMALLINT ∧
        st.ifxAttrType attnum ≠ IfxSourceType.IFX_INTEGER ∧
        st.ifxAttrType attnum ≠ IfxSourceType.IFX_SERIAL then
      ConvResult.ok (setAttrNotValid st attnum) Datum.nullDatum
    else
      ConvResult.ok st (Datum.int32 (st.getInt4 (st.pgIfxMap attnum)))
  else if pgtype = INT8OID ∨ pgtype = TEXTOID ∨ pgtype = VARCHAROID ∨
      pgtype = BPCHAROID then
    if st.ifxAttrType attnum = IfxSourceType.IFX_INT8 ∨
        st.ifxAttrType attnum = IfxSourceType.IFX_SERIAL8 ∨
        st.ifxAttrType attnum = IfxSourceType.IFX_INFX_INT8 then
      let buf : Option String :=
        match st.ifxAttrType attnum with
        | IfxSourceType.IFX_INT8 | IfxSourceType.IFX_SERIAL8 =>
            st.getInt8str (st.pgIfxMap attnum)
        | IfxSourceType.IFX_INFX_INT8 => st.getBigIntstr (st.pgIfxMap attnum)
        | _ => none
      match buf with
      | none => ConvResult.err (ifxRewindCallstack st)
      | some bufval =>
        match getTypeInputFunction cat st (st.pgAttrType attnum) with
        | Except.error est => ConvResult.err (ifxRewindCallstack est)
        | Except.ok typinputfunc =>
          match cat.callFunc typinputfunc [Datum.cstring bufval, Datum.oidDatum 0] with
          | Except.error _ => ConvResult.err (ifxRewindCallstack st)
          | Except.ok result => ConvResult.ok st result
    else
      let sourceOid :=
        if st.ifxAttrType attnum = IfxSourceType.IFX_INTEGER then INT4OID else INT2OID
      match getTypeCastFunction cat st sourceOid (st.pgAttrType attnum) with
      | Except.error est => ConvResult.err (ifxRewindCallstack est)
      | Except.ok typcastfunc =>
        let argd :=
          if sourceOid = INT4OID then Datum.int32 (st.getInt4 (st.pgIfxMap attnum))
          else Datum.int16 (st.getInt2 (st.pgIfxMap attnum))
        match cat.callFunc typcastfunc [argd] with
        | Except.error _ => ConvResult.err (ifxRewindCallstack st)
        | Except.ok result => ConvResult.ok st result
  else
    ConvResult.ok (setAttrNotValid st attnum) Datum.nullDatum

/-! ## Option validation (src/ifx_fdw.c)

The validator assembles options into an IfxConnectionInfo whose string
members start as NULL; presence is modelled with Option.  The two cost
options go through strtof, whose "no digits were consumed and the result
is negative" failure condition is an oracle parameter. -/

/-- A DefElem as the validator sees it: option name and its string
value (defGetString). -/
structure DefElem where
  defname : String
  arg : String
deriving DecidableEq

/-- The option fields of IfxConnectionInfo as they are filled during
validation (NULL pointers become None); the cost options keep the raw
option text. -/
structure IfxConnectionOptions where
  servername : Option String
  database : Option String
  username : Option String
  password : Option String
  query : Option String
  tablename : Option String
  estimated_rows : Option String
  connection_costs : Option String
deriving DecidableEq

/-- The zero-initialized IfxConnectionInfo of ifx_fdw_validator. -/
def emptyOptions : IfxConnectionOptions :=
  { servername := none, database := none, username := none, password := none,
    query := none, tablename := none, estimated_rows := none, connection_costs := none }

/-- Shallow embedding of ifxGetOptionDups (src/ifx_fdw.c:284-398),
branch for branch.  Deliberately kept faithful to the source: the
"username" branch tests coninfo->database (not coninfo->username) before
reporting a duplicate, and the "query" branch assigns the value to
coninfo->tablename (not coninfo->query).  ereport(ERROR) becomes
Except.error carrying the errmsg text. -/
def ifxGetOptionDups (strtofFailed : String → Bool) (coninfo : IfxConnectionOptions)
    (elem : DefElem) : Except String IfxConnectionOptions :=
  if elem.defname = "servername" then
    if coninfo.servername.isSome then
      Except.error ("conflicting or redundant options: servername(" ++ elem.arg ++ ")")
    else Except.ok { coninfo with servername := some elem.arg }
  else if elem.defname = "database" then
    if coninfo.database.isSome then
      Except.error ("conflicting or redundant options: database(" ++ elem.arg ++ ")")
    else Except.ok { coninfo with database := some elem.arg }
  else if elem.defname = "username" then
    if coninfo.database.isSome then
      Except.error ("conflicting or redundant options: username(" ++ elem.arg ++ ")")
    else Except.ok { coninfo with username := some elem.arg }
  else if elem.defname = "password" then
    if coninfo.password.isSome then
      Except.error ("conflicting or redundant options: password(" ++ elem.arg ++ ")")
    else Except.ok { coninfo with password := some elem.arg }
  else if elem.defname = "query" then
    if coninfo.tablename.isSome then
      Except.error "conflicting options: query cannot be used with table"
    else if coninfo.query.isSome then
      Except.error ("conflicting or redundant options: query (" ++ elem.arg ++ ")")
    else Except.ok { coninfo with tablename := some elem.arg }
  else if elem.defname = "table" then
    if coninfo.query.isSome then
      Except.error "conflicting options: query cannot be used with query"
    else if coninfo.tablename.isSome then
      Except.error ("conflicting or redundant options: table(" ++ elem.arg ++ ")")
    else Except.ok { coninfo with tablename := some elem.arg }
  else if elem.defname = "estimated_rows" then
    if strtofFailed elem.arg then
      Except.error
        ("\"" ++ elem.arg ++ "\" is not a valid number for parameter \"estimated_rows\"")
    else Except.ok { coninfo with estimated_rows := some elem.arg }
  else if elem.defname = "connection_costs" then
    if strtofFailed elem.arg then
      Except.error
        ("\"" ++ elem.arg ++ "\" is not a valid number for parameter \"estimated_rows\"")
    else Except.ok { coninfo with connection_costs := some elem.arg }
  else Except.ok coninfo

def ForeignServerRelationId : Oid := 1417
def UserMappingRelationId : Oid := 1418
def ForeignTableRelationId : Oid := 3118

/-- The ifx_valid_options table (src/ifx_fdw.c:53-64), without its NULL
terminator entry. -/
def ifx_valid_options : List (String × Oid) :=
  [("informixserver", ForeignServerRelationId),
   ("user", UserMappingRelationId),
   ("password", UserMappingRelationId),
   ("database", ForeignTableRelationId),
   ("query", ForeignTableRelationId),
   ("table", ForeignTableRelationId),
   ("estimated_rows", ForeignTableRelationId),
   ("connection_costs", ForeignTableRelationId)]

/-- Shallow embedding of ifxIsValidOption (src/ifx_fdw.c:1041-1058).
Kept faithful to the source: the strcmp there compares
ifxopt->optname against ifxopt->optname itself rather than against the
queried option, so the loop accepts as soon as any table entry matches
the catalog context, whatever the queried name is. -/
def ifxIsValidOption (opt : String) (context : Oid) : Bool :=
  ifx_valid_options.any (fun e => context == e.2 && e.1 == e.1)

/-- Shallow embedding of the option loop of ifx_fdw_validator
(src/ifx_fdw.c:454-491): for each DefElem, reject unknown options (per
ifxIsValidOption), then run the duplicate/conflict checks of
ifxGetOptionDups against the accumulated IfxConnectionInfo. -/
def ifx_fdw_validator (strtofFailed : String → Bool) (catalogOid : Oid)
    (ifx_options_list : List DefElem) : Except String IfxConnectionOptions :=
  ifx_options_list.foldlM
    (fun coninfo elem =>
      if ¬ ifxIsValidOption elem.defname catalogOid then
        Except.error ("invalid option \"" ++ elem.defname ++ "\"")
      else
        ifxGetOptionDups strtofFailed coninfo elem)
    emptyOptions

/-! ## Scan iteration (src/ifx_fdw.c)

ifxIterateForeignScan and ifxColumnValueByAttNum work on C arrays whose
valid slots are 0 .. ifxAttrCount - 1 (with an extra NULL sentinel slot
appended).  Arrays are modelled as lists of optional elements (None for
a NULL or still-uninitialized slot) accessed through an explicitly
bounds-checked, Int-indexed accessor, so that every out-of-bounds or
NULL-slot access is visible as an invalidAccess result instead of
undefined behavior. -/

/-- Bounds-checked C array read with a possibly negative index. -/
def listGetI {α : Type} (l : List α) (i : Int) : Option α :=
  if i < 0 then none else l.get? i.toNat

/-- Bounds-checked C array write with a possibly negative index. -/
def listSetI {α : Type} (l : List α) (i : Int) (a : α) : Option (List α) :=
  if 0 ≤ i ∧ i < (l.length : Int) then some (l.set i.toNat a) else none

/-- A local column definition (PgAttrDef from ifx_fdw.h, reconstructed
from the assignments in ifxPgColumnData). -/
structure PgAttrDef where
  attnum : Int
  atttypid : Oid
  atttypmod : Int
  attname : String
deriving DecidableEq

/-- A remote column descriptor as used by the iteration path: its type id
and the per-row NULL indicator. -/
structure IfxAttrDef where
  type : IfxSourceType
  indicator : IfxIndicator
deriving DecidableEq

/-- An IfxValue slot: converted datum plus the originating column
definition (the C struct's second member is named def). -/
structure IfxValue where
  val : Datum
  colDef : IfxAttrDef
deriving DecidableEq

/-- The statement-info fields used during iteration, with the ESQL
integer getter ifxGetInt as an oracle for the current row. -/
structure IfxScanStmtInfo where
  ifxAttrCount : Nat
  ifxAttrDefs : List (Option IfxAttrDef)
  getInt : Int → Int

/-- The IfxFdwExecutionState fields used during iteration.  pgAttrDefs
slots are NULL (None) for dropped local columns, per ifxPgColumnData. -/
structure IfxFdwExecutionState where
  stmt_info : IfxScanStmtInfo
  pgAttrCount : Nat
  pgAttrDefs : List (Option PgAttrDef)
  values : List (Option IfxValue)

/-- Fetch/iteration error classes of ifxSetException. -/
inductive IfxSqlStateClass where
  | IFX_SUCCESS
  | IFX_NOT_FOUND
  | IFX_WARNING
  | IFX_ERROR
  | IFX_RT_ERROR
deriving DecidableEq

/-- Result of one ifxColumnValueByAttNum call: the updated state, the
elog for an unknown Informix type id, or an access outside the valid
array slots. -/
inductive ColumnFetchStep where
  | ok (st : IfxFdwExecutionState)
  | typeError
  | invalidAccess

/-- Shallow embedding of ifxColumnValueByAttNum (src/ifx_fdw.c:747-767).
The function treats attnum as 1-based: it reads
stmt_info.ifxAttrDefs[attnum - 1] and writes values[attnum - 1]; for an
IFX_INTEGER/IFX_SERIAL column the datum comes from ifxGetInt(state,
attnum), any other type id hits the elog in the default branch.  The
C assertion attnum >= 0 admits attnum = 0, for which attnum - 1 is -1. -/
def ifxColumnValueByAttNum (st : IfxFdwExecutionState) (attnum : Int) :
    ColumnFetchStep :=
  match listGetI st.stmt_info.ifxAttrDefs (attnum - 1) with
  | none => ColumnFetchStep.invalidAccess
  | some none => ColumnFetchStep.invalidAccess
  | some (some adef) =>
    match adef.type with
    | IfxSourceType.IFX_INTEGER | IfxSourceType.IFX_SERIAL =>
      let v : IfxValue :=
        { val := Datum.int32 (st.stmt_info.getInt attnum), colDef := adef }
      match listSetI st.values (attnum - 1) (some v) with
      | none => ColumnFetchStep.invalidAccess
      | some values' => ColumnFetchStep.ok { st with values := values' }
    | _ => ColumnFetchStep.typeError

/-- The tuple slot assembled for one fetched row.  tts_isnull and
tts_values are palloc'ed (uninitialized) arrays of tts_nvalid entries;
None models a slot the loop never assigned. -/
structure TupleSlotModel where
  tts_isempty : Bool
  tts_nvalid : Nat
  tts_isnull : List (Option Bool)
  tts_values : List (Option Datum)
deriving DecidableEq

/-- Result of one ifxIterateForeignScan call. -/
inductive IterateResult where
  | row (st : IfxFdwExecutionState) (slot : TupleSlotModel)
  | endOfScan (slot : TupleSlotModel)
  | typeError
  | invalidAccess

/-- The column loop of ifxIterateForeignScan (src/ifx_fdw.c:823-861),
one iteration per remaining count, current index i: call
ifxColumnValueByAttNum(state, i); then if pgAttrDefs[i] is NULL (dropped
column) store an explicit null, else if ifxAttrDefs[i]'s indicator is
INDICATOR_NULL store an explicit null, else store values[i]->val as a
non-null value. -/
def ifxIterateColumnsLoop :
    Nat → Nat → IfxFdwExecutionState → TupleSlotModel → IterateResult
  | 0, _, st, slot => IterateResult.row st slot
  | Nat.succ rem, i, st, slot =>
      match ifxColumnValueByAttNum st (Int.ofNat i) with
      | ColumnFetchStep.invalidAccess => IterateResult.invalidAccess
      | ColumnFetchStep.typeError => IterateResult.typeError
      | ColumnFetchStep.ok st1 =>
        match listGetI st1.pgAttrDefs (Int.ofNat i) with
        | none => IterateResult.invalidAccess
        | some none =>
            ifxIterateColumnsLoop rem (i + 1) st1
              { slot with
                  tts_isnull := slot.tts_isnull.set i (some true)
                  tts_values := slot.tts_values.set i (some Datum.nullDatum) }
        | some (some _) =>
          match listGetI st1.stmt_info.ifxAttrDefs (Int.ofNat i) with
          | none => IterateResult.invalidAccess
          | some none => IterateResult.invalidAccess
          | some (some adef) =>
            if adef.indicator = IfxIndicator.INDICATOR_NULL then
              ifxIterateColumnsLoop rem (i + 1) st1
                { slot with
                    tts_isnull := slot.tts_isnull.set i (some true)
                    tts_values := slot.tts_values.set i (some Datum.nullDatum) }
            else
              match listGetI st1.values (Int.ofNat i) with
              | none => IterateResult.invalidAccess
              | some none => IterateResult.invalidAccess
              | some (some v) =>
                ifxIterateColumnsLoop rem (i + 1) st1
                  { slot with
                      tts_isnull := slot.tts_isnull.set i (some false)
                      tts_values := slot.tts_values.set i (some v.val) }

/-- Shallow embedding of ifxIterateForeignScan (src/ifx_fdw.c:769-864)
after ifxFetchRowFromCursor, taking the fetch's error class as input.
IFX_NOT_FOUND yields the empty tuple slot.  Otherwise the values array is
(re)allocated with ifxAttrCount + 1 uninitialized slots (the last set to
NULL), the slot arrays are palloc'ed with tts_nvalid = ifxAttrCount
uninitialized entries, and the column loop runs for
i = 0 .. ifxAttrCount - 2 (the C condition is i < ifxAttrCount - 1). -/
def ifxIterateForeignScan (st0 : IfxFdwExecutionState)
    (fetchResult : IfxSqlStateClass) : IterateResult :=
  if fetchResult = IfxSqlStateClass.IFX_NOT_FOUND then
    IterateResult.endOfScan
      { tts_isempty := true, tts_nvalid := 0, tts_isnull := [], tts_values := [] }
  else
    let n := st0.stmt_info.ifxAttrCount
    let st := { st0 with values := List.replicate (n + 1) none }
    let slot : TupleSlotModel :=
      { tts_isempty := false
        tts_nvalid := n
        tts_isnull := List.replicate n none
        tts_values := List.replicate n none }
    ifxIterateColumnsLoop (n - 1) 0 st slot

/-! ## Concrete instances used by the evaluation theorems -/

/-- Projection used to state facts about a produced row slot. -/
def iterateSlotOf : IterateResult → Option TupleSlotModel
  | IterateResult.row _ slot => some slot
  | _ => none

/-- Recognizer for the invalid-access outcome of an iteration. -/
def isInvalidAccess : IterateResult → Bool
  | IterateResult.invalidAccess => true
  | _ => false

/-- A connection info for the identifier-generation run: identity
(user, db, server), connection name as built by ifxGenerateConnName,
new-scan mode. -/
def cidConinfo : IfxConnectionInfo :=
  { conname := "user-db-server", servername := "server",
    informixdir := "/opt/informix", username := "user", database := "db",
    tx_enabled := true, db_ansi := false, db_locale := none,
    client_locale := none, scan_mode := IfxScanMode.IFX_PLAN_SCAN }

/-- First scan bound on an empty cache. -/
def cidBind1 : IfxConnCache × Nat × String × String :=
  scanBindIdentifiers [] 1 cidConinfo 7

/-- Second scan bound on the cache left by the first. -/
def cidBind2 : IfxConnCache × Nat × String × String :=
  scanBindIdentifiers cidBind1.1 1 cidConinfo 7

/-- The cache after creating the entry for cidConinfo. -/
def cidCache1 : IfxConnCache := (ifxConnCache_add [] 5 cidConinfo).1

/-- The entry created for cidConinfo. -/
def cidItem1 : IfxCachedConnection := (ifxConnCache_add [] 5 cidConinfo).2.1

/-- The built-in greater-than operator's catalog tuple. -/
def oprGT : PgOperator := { oprname := ">", oprnamespace := PG_CATALOG_NAMESPACE }

/-- The built-in equality operator's catalog tuple. -/
def oprEQ : PgOperator := { oprname := "=", oprnamespace := PG_CATALOG_NAMESPACE }

/-- The expression a > 5 AND b = 'x', with both columns on the target
relation (range-table index 3) at the current query level. -/
def exprAnd : PgNode :=
  PgNode.boolExprNode PgBoolExprType.AND_EXPR
    [PgNode.opExprNode oprGT [PgNode.varNode 3 0 "a", PgNode.constNode "5"],
     PgNode.opExprNode oprEQ [PgNode.varNode 3 0 "b", PgNode.constNode "'x'"]]

/-- A fresh walker context scoped to range-table index 3. -/
def ctx3 : IfxPushdownOprContext :=
  { foreign_relid := 42, foreign_rtid := 3, predicates := [], count := 0 }

/-- A catalog with no input, output or cast functions and a raising
fmgr, for exercising the failure paths. -/
def failCat : PgCatalog :=
  { typinput := fun _ => none, typoutput := fun _ => none,
    castfunc := fun _ _ => none, callFunc := fun _ _ => Except.error () }

/-- A conversion state positioned on a DATE column headed for a DATE
target, with pending remote diagnostic state. -/
def dateSt : IfxConvState :=
  { pgAttrType := fun _ => DATEOID, pgAttrTypmod := fun _ => -1,
    ifxAttrType := fun _ => IfxSourceType.IFX_DATE,
    indicators := fun _ => IfxIndicator.INDICATOR_NOT_NULL,
    pgIfxMap := fun j => j, callstackPending := true,
    getInt2 := fun _ => 0, getInt4 := fun _ => 0,
    getInt8str := fun _ => some "0", getBigIntstr := fun _ => some "0",
    getDateString := fun _ => some "2024-01-01",
    getTimestampString := fun _ => none, getDecimalString := fun _ => none }

/-- A conversion state with an Informix INT8 column headed for a TEXT
target whose ESQL int8 getter reports failure (NULL buffer). -/
def int8FailSt : IfxConvState :=
  { dateSt with
      pgAttrType := fun _ => TEXTOID,
      ifxAttrType := fun _ => IfxSourceType.IFX_INT8,
      getInt8str := fun _ => none }

/-- A conversion state whose local target type (oid 2950, not an
integer, character, date, timestamp or numeric target) is outside every
compatibility set. -/
def incompatSt : IfxConvState :=
  { dateSt with pgAttrType := fun _ => 2950 }

/-- One-column scan state: one remote integer column, one local column
that is dropped (NULL pgAttrDefs slot), successful fetch pending. -/
def oneColState : IfxFdwExecutionState :=
  { stmt_info :=
      { ifxAttrCount := 1
        ifxAttrDefs := [some { type := IfxSourceType.IFX_INTEGER,
                               indicator := IfxIndicator.INDICATOR_NOT_NULL }, none]
        getInt := fun _ => 0 }
    pgAttrCount := 1
    pgAttrDefs := [none]
    values := [] }

/-- One remote column but two declared local columns. -/
def oneColTwoPgState : IfxFdwExecutionState :=
  { oneColState with
      pgAttrCount := 2
      pgAttrDefs := [some { attnum := 1, atttypid := INT4OID, atttypmod := -1, attname := "a" },
                     some { attnum := 2, atttypid := INT4OID, atttypmod := -1, attname := "b" }] }

/-- Two-column scan state: two remote integer columns with matching
live local columns, successful fetch pending. -/
def twoColState : IfxFdwExecutionState :=
  { stmt_info :=
      { ifxAttrCount := 2
        ifxAttrDefs := [some { type := IfxSourceType.IFX_INTEGER,
                               indicator := IfxIndicator.INDICATOR_NOT_NULL },
                        some { type := IfxSourceType.IFX_INTEGER,
                               indicator := IfxIndicator.INDICATOR_NOT_NULL }, none]
        getInt := fun _ => 0 }
    pgAttrCount := 2
    pgAttrDefs := [some { attnum := 1, atttypid := INT4OID, atttypmod := -1, attname := "a" },
                   some { attnum := 2, atttypid := INT4OID, atttypmod := -1, attname := "b" }]
    values := [] }

/-! ## Helper lemmas -/

/-- mapPushdownOperator accepts exactly the seven comparison symbols
defined in pg_catalog. -/
theorem mapPushdownOperator_supported_iff (opr : PgOperator) :
    mapPushdownOperator opr ≠ IfxOprType.IFX_OPR_NOT_SUPPORTED ↔
      (opr.oprnamespace = PG_CATALOG_NAMESPACE ∧
        opr.oprname ∈ ([">=", "<=", "<", ">", "=", "<>", "~~"] : List String)) := by
  unfold mapPushdownOperator
  split_ifs <;> simp_all

/-- The walker's boolean operand check agrees with the operand shape the
specification admits. -/
theorem operandSupported_iff (foreign_rtid : Nat) (a : PgNode) :
    operandSupported foreign_rtid a = true ↔
      operandIsTargetColumnOrConst foreign_rtid a := by
  cases a <;> simp [operandSupported, operandIsTargetColumnOrConst]

/-! ## Claim theorems -/

/-- C1: the claim says every successfully fetched row assigns each local
column position exactly one of a non-null value or an explicit null,
that the output column count equals the local table's declared attribute
count, and that a dropped local column always yields null.  The code
violates this: the column loop runs while i < ifxAttrCount - 1, so the
last column position is never assigned (its palloc'ed tts_isnull and
tts_values slots stay uninitialized, modelled as none) even when the
local column is dropped, and tts_nvalid is set to the remote
ifxAttrCount rather than to the local pgAttrCount.  Evaluated here on a
one-column row whose local column is dropped, and on a one-remote-column
row of a table with two declared local columns. -/
theorem C1_iterate_leaves_last_column_unassigned :
    oneColState.pgAttrCount = 1 ∧
    oneColState.pgAttrDefs = [none] ∧
    iterateSlotOf (ifxIterateForeignScan oneColState IfxSqlStateClass.IFX_SUCCESS) =
      some { tts_isempty := false, tts_nvalid := 1,
             tts_isnull := [none], tts_values := [none] } ∧
    oneColTwoPgState.pgAttrCount = 2 ∧
    iterateSlotOf (ifxIterateForeignScan oneColTwoPgState IfxSqlStateClass.IFX_SUCCESS) =
      some { tts_isempty := false, tts_nvalid := 1,
             tts_isnull := [none], tts_values := [none] } :=
  ⟨rfl, rfl, rfl, rfl, rfl⟩

/-- C2: the claim says statement and cursor identifiers are generated
from the session identity together with the usage counter and that
identifiers generated at distinct usage values are never equal.  The
code violates this: ifxGenStatementName and ifxGenCursorName never read
the usage counter, and their snprintf calls pass the format literal as
the destination buffer, so both return the empty string every time.
Two consecutive scan binds of the same session here get usage values 1
and 2 yet identical (empty) statement and cursor names. -/
theorem C2_identifiers_equal_across_usage_values :
    cidBind1.2.1 = 1 ∧ cidBind2.2.1 = 2 ∧
    cidBind1.2.2.1 = cidBind2.2.2.1 ∧
    cidBind1.2.2.2 = cidBind2.2.2.2 ∧
    cidBind1.2.2.1 = "" ∧ cidBind1.2.2.2 = "" := by
  refine ⟨by decide, by decide, by decide, by decide, by decide, by decide⟩

/-- C3: for every connection identity, the first ifxConnCache_add call
creates an entry holding copies of the connection parameters with usage
counter 1 and zeroed transaction-in-progress, commit and rollback
counters, appended to the cache; every later call with the same identity
finds that entry, keeps its stored parameters (they come from the stored
entry, not from the caller's struct), increments usage by exactly 1 when
the caller signals a new scan (scan_mode = IFX_PLAN_SCAN), and leaves
usage unchanged on a plain re-lookup. -/
theorem C3_conncache_add_lookup_or_create :
    (∀ (cache : IfxConnCache) (oid : Oid) (coninfo : IfxConnectionInfo),
      List.lookup coninfo.conname cache = none →
        (ifxConnCache_add cache oid coninfo).2.2 = false ∧
        (ifxConnCache_add cache oid coninfo).2.1.con.usage = 1 ∧
        (ifxConnCache_add cache oid coninfo).2.1.con.tx_in_progress = 0 ∧
        (ifxConnCache_add cache oid coninfo).2.1.con.tx_num_commit = 0 ∧
        (ifxConnCache_add cache oid coninfo).2.1.con.tx_num_rollback = 0 ∧
        (ifxConnCache_add cache oid coninfo).2.1.con.servername = coninfo.servername ∧
        (ifxConnCache_add cache oid coninfo).2.1.con.informixdir = coninfo.informixdir ∧
        (ifxConnCache_add cache oid coninfo).2.1.con.username = coninfo.username ∧
        (ifxConnCache_add cache oid coninfo).2.1.con.database = coninfo.database ∧
        (ifxConnCache_add cache oid coninfo).2.1.establishedByOid = oid ∧
        (ifxConnCache_add cache oid coninfo).1 =
          cache ++ [(coninfo.conname, (ifxConnCache_add cache oid coninfo).2.1)]) ∧
    (∀ (cache : IfxConnCache) (oid : Oid) (coninfo : IfxConnectionInfo)
        (item : IfxCachedConnection),
      List.lookup coninfo.conname cache = some item →
        (ifxConnCache_add cache oid coninfo).2.2 = true ∧
        (ifxConnCache_add cache oid coninfo).2.1.con.usage =
          (if coninfo.scan_mode = IfxScanMode.IFX_PLAN_SCAN then item.con.usage + 1
           else item.con.usage) ∧
        (ifxConnCache_add cache oid coninfo).2.1.con.servername = item.con.servername ∧
        (ifxConnCache_add cache oid coninfo).2.1.con.informixdir = item.con.informixdir ∧
        (ifxConnCache_add cache oid coninfo).2.1.con.username = item.con.username ∧
        (ifxConnCache_add cache oid coninfo).2.1.con.database = item.con.database ∧
        (ifxConnCache_add cache oid coninfo).2.1.con.db_locale = item.con.db_locale ∧
        (ifxConnCache_add cache oid coninfo).2.1.con.client_locale = item.con.client_locale ∧
        (ifxConnCache_add cache oid coninfo).2.1.establishedByOid = item.establishedByOid ∧
        (ifxConnCache_add cache oid coninfo).1 =
          cacheStore cache coninfo.conname (ifxConnCache_add cache oid coninfo).2.1) := by
  constructor
  · intro cache oid coninfo h
    simp [ifxConnCache_add, h]
  · intro cache oid coninfo item h
    by_cases hs : coninfo.scan_mode = IfxScanMode.IFX_PLAN_SCAN <;>
      simp [ifxConnCache_add, h, hs]

/-- C3 witness: the general theorem applied to a concrete identity,
created on an empty cache and re-bound in new-scan mode. -/
theorem C3_conncache_add_lookup_or_create_witness :
    (ifxConnCache_add ([] : IfxConnCache) 5 cidConinfo).2.1.con.usage = 1 ∧
    (ifxConnCache_add cidCache1 5 cidConinfo).2.2 = true ∧
    (ifxConnCache_add cidCache1 5 cidConinfo).2.1.con.usage =
      (if cidConinfo.scan_mode = IfxScanMode.IFX_PLAN_SCAN then cidItem1.con.usage + 1
       else cidItem1.con.usage) :=
  ⟨(C3_conncache_add_lookup_or_create.1 [] 5 cidConinfo (by decide)).2.1,
   (C3_conncache_add_lookup_or_create.2 cidCache1 5 cidConinfo cidItem1 (by decide)).1,
   (C3_conncache_add_lookup_or_create.2 cidCache1 5 cidConinfo cidItem1 (by decide)).2.1⟩

/-- C4: an OpExpr node contributes exactly one fragment to the pushdown
sequence if and only if its operator name is one of the seven supported
comparison symbols, the operator lives in pg_catalog, and every operand
is either a column reference of the target relation at the current query
level or a constant; in every other case the node contributes no
fragment at all. -/
theorem C4_opexpr_fragment_iff (context : IfxPushdownOprContext)
    (opr : PgOperator) (args : List PgNode) :
    ((((ifx_predicate_tree_walker (PgNode.opExprNode opr args) context).1).predicates.length
        = context.predicates.length + 1) ↔
      (opr.oprnamespace = PG_CATALOG_NAMESPACE ∧
        opr.oprname ∈ ([">=", "<=", "<", ">", "=", "<>", "~~"] : List String) ∧
        ∀ a ∈ args, operandIsTargetColumnOrConst context.foreign_rtid a)) ∧
    ((((ifx_predicate_tree_walker (PgNode.opExprNode opr args) context).1).predicates.length
        = context.predicates.length + 1) ∨
      ((ifx_predicate_tree_walker (PgNode.opExprNode opr args) context).1).predicates
        = context.predicates) := by
  by_cases hop : mapPushdownOperator opr = IfxOprType.IFX_OPR_NOT_SUPPORTED
  · have hns : ¬(opr.oprnamespace = PG_CATALOG_NAMESPACE ∧
        opr.oprname ∈ ([">=", "<=", "<", ">", "=", "<>", "~~"] : List String)) :=
      fun hc => (mapPushdownOperator_supported_iff opr).mpr hc hop
    have hctx : (ifx_predicate_tree_walker (PgNode.opExprNode opr args) context).1
        = context := by
      simp [ifx_predicate_tree_walker, hop]
    constructor
    · rw [hctx]
      constructor
      · intro hlen
        exact absurd hlen (by simp)
      · intro hrhs
        exact absurd ⟨hrhs.1, hrhs.2.1⟩ hns
    · right
      rw [hctx]
  · by_cases hargs : args.all (operandSupported context.foreign_rtid) = true
    · constructor
      · constructor
        · intro _
          refine ⟨((mapPushdownOperator_supported_iff opr).mp hop).1,
                  ((mapPushdownOperator_supported_iff opr).mp hop).2, ?_⟩
          intro a ha
          exact (operandSupported_iff context.foreign_rtid a).mp
            (List.all_eq_true.mp hargs a ha)
        · intro _
          simp [ifx_predicate_tree_walker, hop, hargs, pushPredicate]
      · left
        simp [ifx_predicate_tree_walker, hop, hargs, pushPredicate]
    · constructor
      · constructor
        · intro hlen
          rw [show ((ifx_predicate_tree_walker (PgNode.opExprNode opr args) context).1)
                = context by simp [ifx_predicate_tree_walker, hop, hargs]] at hlen
          exact absurd hlen (by simp)
        · intro hrhs
          refine absurd ?_ hargs
          exact List.all_eq_true.mpr fun a ha =>
            (operandSupported_iff context.foreign_rtid a).mpr (hrhs.2.2 a ha)
      · right
        simp [ifx_predicate_tree_walker, hop, hargs]

/-- C6: for a boolean connective the walker recurses into each operand
first and appends exactly one connective marker after each operand
except the last, preserving source order; on a > 5 AND b = 'x' scoped to
the target relation the output is fragment(a > 5), connective(AND),
fragment(b = 'x'), both leaf fragments carrying non-empty deparsed
text. -/
theorem C6_boolexpr_fragment_order :
    (∀ (boolop : PgBoolExprType) (a b : PgNode) (context : IfxPushdownOprContext),
      (ifx_predicate_tree_walker (PgNode.boolExprNode boolop [a, b]) context).1 =
        (ifx_predicate_tree_walker b
          (pushPredicate (ifx_predicate_tree_walker a context).1
            (boolConnectiveInfo boolop))).1) ∧
    (ifx_predicate_tree_walker exprAnd ctx3).1.predicates =
      [{ type := IfxOprType.IFX_OPR_GT, expr_string := some "a > 5" },
       { type := IfxOprType.IFX_OPR_AND, expr_string := some "AND" },
       { type := IfxOprType.IFX_OPR_EQUAL, expr_string := some "b = 'x'" }] ∧
    (ifx_predicate_tree_walker exprAnd ctx3).1.count = 3 ∧
    ("a > 5" : String) ≠ "" ∧ ("b = 'x'" : String) ≠ "" :=
  ⟨fun _ _ _ _ => rfl, by decide, by decide, by decide, by decide⟩

/-- C5: the claim says the first ifxFTCache_add call stores the given
connection name as the entry's binding.  The code violates this: the
entry is filled with StrNCpy(item->ifx_connection_name, conname,
strlen(conname)), and StrNCpy forces a zero at position len - 1, so the
stored binding drops the final character of the name ("abc" is stored
as "ab").  The create-or-fetch half of the claim does hold: a second
call for the same table id with a different name returns the first
entry unchanged. -/
theorem C5_ftcache_add_truncates_and_keeps_binding :
    (ifxFTCache_add [] 1 "abc").2.ifx_connection_name = "ab" ∧
    (ifxFTCache_add [] 1 "abc").2.ifx_connection_name ≠ "abc" ∧
    (ifxFTCache_add (ifxFTCache_add [] 1 "abc").1 1 "xyz").2 =
      (ifxFTCache_add [] 1 "abc").2 := by
  refine ⟨by decide, by decide, by decide⟩

/-- C7: whenever the lookup of a required type input, output or cast
function fails during marshaling, the pending remote diagnostic state is
cleared (ifxRewindCallstack) before the fatal error is raised, and the
same rewind precedes every re-throw of an error caught during a
mid-conversion call (shown for convertIfxDateString and convertIfxInt:
any error they propagate carries a cleared callstack). -/
theorem C7_rewind_before_escalate :
    (∀ (st : IfxConvState), (ifxRewindCallstack st).callstackPending = false) ∧
    (∀ (cat : PgCatalog) (st : IfxConvState) (inputOid : Oid),
      cat.typinput inputOid = none →
        getTypeInputFunction cat st inputOid = Except.error (ifxRewindCallstack st)) ∧
    (∀ (cat : PgCatalog) (st : IfxConvState) (sourceOid targetOid : Oid),
      cat.castfunc sourceOid targetOid = none →
        getTypeCastFunction cat st sourceOid targetOid =
          Except.error (ifxRewindCallstack st)) ∧
    (∀ (cat : PgCatalog) (st : IfxConvState) (inputOid : Oid),
      cat.typoutput inputOid = none →
        getTypeOutputFunction cat st inputOid = Except.error (ifxRewindCallstack st)) ∧
    (∀ (cat : PgCatalog) (st : IfxConvState) (attnum : Nat) (est : IfxConvState),
      convertIfxDateString cat st attnum = ConvResult.err est →
        est.callstackPending = false) ∧
    (∀ (cat : PgCatalog) (st : IfxConvState) (attnum : Nat) (est : IfxConvState),
      convertIfxInt cat st attnum = ConvResult.err est →
        est.callstackPending = false) := by
  refine ⟨fun st => rfl, ?_, ?_, ?_, ?_, ?_⟩
  · intro cat st inputOid h
    simp [getTypeInputFunction, h]
  · intro cat st sourceOid targetOid h
    simp [getTypeCastFunction, h]
  · intro cat st inputOid h
    simp [getTypeOutputFunction, h]
  · intro cat st attnum est h
    dsimp only [convertIfxDateString] at h
    iterate 8 (all_goals try split at h)
    all_goals first
      | exact rfl
      | (injection h with h1; subst h1; exact rfl)
      | cases h
  · intro cat st attnum est h
    dsimp only [convertIfxInt] at h
    iterate 8 (all_goals try split at h)
    all_goals first
      | exact rfl
      | (injection h with h1; subst h1; exact rfl)
      | cases h

/-- C7 witness: the rewind-then-escalate theorem applied to a catalog
with no registered functions: the input and cast lookups fail with the
rewound state, and a date conversion whose input-function lookup raises
propagates an error with cleared diagnostic state. -/
theorem C7_rewind_before_escalate_witness :
    getTypeInputFunction failCat dateSt DATEOID = Except.error (ifxRewindCallstack dateSt) ∧
    getTypeCastFunction failCat dateSt INT4OID TEXTOID =
      Except.error (ifxRewindCallstack dateSt) ∧
    (ifxRewindCallstack (ifxRewindCallstack dateSt)).callstackPending = false ∧
    (ifxRewindCallstack int8FailSt).callstackPending = false :=
  ⟨C7_rewind_before_escalate.2.1 failCat dateSt DATEOID rfl,
   C7_rewind_before_escalate.2.2.1 failCat dateSt INT4OID TEXTOID rfl,
   C7_rewind_before_escalate.2.2.2.2.1 failCat dateSt 0
     (ifxRewindCallstack (ifxRewindCallstack dateSt)) rfl,
   C7_rewind_before_escalate.2.2.2.2.2 failCat int8FailSt 0
     (ifxRewindCallstack int8FailSt) rfl⟩

/-- C8: a source/target combination outside a conversion routine's
compatibility set marks exactly that attribute as not convertible
(INDICATOR_NOT_VALID) and returns a null datum without raising an error;
the marking touches no other attribute and no other state component.
Shown for convertIfxInt (unsupported target; INT2 target with a
non-SMALLINT source; INT4 target with a source outside SMALLINT,
INTEGER, SERIAL), convertIfxDateString, convertIfxTimestampString and
convertIfxDecimal. -/
theorem C8_incompatible_marks_not_convertible :
    (∀ (cat : PgCatalog) (st : IfxConvState) (attnum : Nat),
      st.pgAttrType attnum ≠ INT2OID → st.pgAttrType attnum ≠ INT4OID →
      st.pgAttrType attnum ≠ INT8OID → st.pgAttrType attnum ≠ TEXTOID →
      st.pgAttrType attnum ≠ VARCHAROID → st.pgAttrType attnum ≠ BPCHAROID →
        convertIfxInt cat st attnum =
          ConvResult.ok (setAttrNotValid st attnum) Datum.nullDatum) ∧
    (∀ (cat : PgCatalog) (st : IfxConvState) (attnum : Nat),
      st.pgAttrType attnum = INT2OID →
      st.ifxAttrType attnum ≠ IfxSourceType.IFX_SMALLINT →
        convertIfxInt cat st attnum =
          ConvResult.ok (setAttrNotValid st attnum) Datum.nullDatum) ∧
    (∀ (cat : PgCatalog) (st : IfxConvState) (attnum : Nat),
      st.pgAttrType attnum = INT4OID →
      st.ifxAttrType attnum ≠ IfxSourceType.IFX_SMALLINT →
      st.ifxAttrType attnum ≠ IfxSourceType.IFX_INTEGER →
      st.ifxAttrType attnum ≠ IfxSourceType.IFX_SERIAL →
        convertIfxInt cat st attnum =
          ConvResult.ok (setAttrNotValid st attnum) Datum.nullDatum) ∧
    (∀ (cat : PgCatalog) (st : IfxConvState) (attnum : Nat),
      st.pgAttrType attnum ≠ TEXTOID → st.pgAttrType attnum ≠ VARCHAROID →
      st.pgAttrType attnum ≠ BPCHAROID → st.pgAttrType attnum ≠ DATEOID →
        convertIfxDateString cat st attnum =
          ConvResult.ok (setAttrNotValid st attnum) Datum.nullDatum) ∧
    (∀ (cat : PgCatalog) (st : IfxConvState) (attnum : Nat),
      st.pgAttrType attnum ≠ TEXTOID → st.pgAttrType attnum ≠ VARCHAROID →
      st.pgAttrType attnum ≠ BPCHAROID → st.pgAttrType attnum ≠ TIMESTAMPOID →
      st.pgAttrType attnum ≠ TIMESTAMPTZOID →
        convertIfxTimestampString cat st attnum =
          ConvResult.ok (setAttrNotValid st attnum) Datum.nullDatum) ∧
    (∀ (cat : PgCatalog) (st : IfxConvState) (attnum : Nat),
      st.pgAttrType attnum ≠ NUMERICOID →
        convertIfxDecimal cat st attnum =
          ConvResult.ok (setAttrNotValid st attnum) Datum.nullDatum) ∧
    (∀ (st : IfxConvState) (attnum : Nat),
      (setAttrNotValid st attnum).indicators attnum =
        IfxIndicator.INDICATOR_NOT_VALID) ∧
    (∀ (st : IfxConvState) (attnum j : Nat), j ≠ attnum →
      (setAttrNotValid st attnum).indicators j = st.indicators j) ∧
    (∀ (st : IfxConvState) (attnum : Nat),
      (setAttrNotValid st attnum).pgAttrType = st.pgAttrType ∧
      (setAttrNotValid st attnum).ifxAttrType = st.ifxAttrType ∧
      (setAttrNotValid st attnum).callstackPending = st.callstackPending) := by
  refine ⟨?_, ?_, ?_, ?_, ?_, ?_, ?_, ?_, ?_⟩
  · intro cat st attnum h1 h2 h3 h4 h5 h6
    simp [convertIfxInt, h1, h2, h3, h4, h5, h6]
  · intro cat st attnum h1 h2
    simp [convertIfxInt, h1, h2, INT2OID, INT4OID]
  · intro cat st attnum h1 h2 h3 h4
    simp [convertIfxInt, h1, h2, h3, h4, INT2OID, INT4OID]
  · intro cat st attnum h1 h2 h3 h4
    simp [convertIfxDateString, h1, h2, h3, h4]
  · intro cat st attnum h1 h2 h3 h4 h5
    simp [convertIfxTimestampString, h1, h2, h3, h4, h5]
  · intro cat st attnum h1
    simp [convertIfxDecimal, h1]
  · intro st attnum
    simp [setAttrNotValid]
  · intro st attnum j hj
    simp [setAttrNotValid, hj]
  · intro st attnum
    exact ⟨rfl, rfl, rfl⟩

/-- C8 witness: the rejection theorem applied to a state whose local
target type (oid 2950) is outside every compatibility set: the integer,
date and decimal converters all mark the attribute not valid and return
a null datum, and the marking leaves the neighbouring attribute's
indicator untouched. -/
theorem C8_incompatible_marks_not_convertible_witness :
    convertIfxInt failCat incompatSt 0 =
      ConvResult.ok (setAttrNotValid incompatSt 0) Datum.nullDatum ∧
    convertIfxDateString failCat incompatSt 0 =
      ConvResult.ok (setAttrNotValid incompatSt 0) Datum.nullDatum ∧
    convertIfxDecimal failCat incompatSt 0 =
      ConvResult.ok (setAttrNotValid incompatSt 0) Datum.nullDatum ∧
    (setAttrNotValid incompatSt 0).indicators 1 = incompatSt.indicators 1 :=
  ⟨C8_incompatible_marks_not_convertible.1 failCat incompatSt 0
     (by decide) (by decide) (by decide) (by decide) (by decide) (by decide),
   C8_incompatible_marks_not_convertible.2.2.2.1 failCat incompatSt 0
     (by decide) (by decide) (by decide) (by decide),
   C8_incompatible_marks_not_convertible.2.2.2.2.2.1 failCat incompatSt 0 (by decide),
   C8_incompatible_marks_not_convertible.2.2.2.2.2.2.2.1 incompatSt 0 1 (by decide)⟩

/-- C9: the claim says specifying the same connection option twice is
reported before any scan starts as a configuration error naming the
offending option.  The code violates this for username: the duplicate
check in ifxGetOptionDups tests coninfo->database instead of
coninfo->username, so two username options with no database option pass
validation silently (the second silently overwrites the first), while a
single username option given after a database option is rejected as a
spurious duplicate. -/
theorem C9_duplicate_username_not_reported :
    ifx_fdw_validator (fun _ => false) UserMappingRelationId
      [{ defname := "username", arg := "u1" }, { defname := "username", arg := "u2" }] =
      Except.ok { emptyOptions with username := some "u2" } ∧
    ifx_fdw_validator (fun _ => false) ForeignTableRelationId
      [{ defname := "database", arg := "d" }, { defname := "username", arg := "u" }] =
      Except.error "conflicting or redundant options: username(u)" :=
  ⟨rfl, rfl⟩

/-- C10: the claim says every array access ifxColumnValueByAttNum
performs for the attribute numbers ifxIterateForeignScan passes it stays
within bounds 0 .. ifxAttrCount - 1.  The code violates this: the loop
passes the 0-based index i directly while ifxColumnValueByAttNum indexes
ifxAttrDefs and values with attnum - 1, so the very first iteration
(i = 0) of any row with at least two columns reads index -1; under the
option-returning array accessor the out-of-bounds branch is reached. -/
theorem C10_column_access_out_of_bounds :
    isInvalidAccess (ifxIterateForeignScan twoColState IfxSqlStateClass.IFX_SUCCESS) = true ∧
    ifxColumnValueByAttNum { twoColState with values := List.replicate 3 none } 0 =
      ColumnFetchStep.invalidAccess ∧
    listGetI ({ twoColState with
        values := List.replicate 3 none } : IfxFdwExecutionState).stmt_info.ifxAttrDefs
      ((0 : Int) - 1) = none :=
  ⟨rfl, rfl, rfl⟩

end InformixFdw
